import Mathlib

/-!
Shallow embedding of the probe-and-chaos coordination core:
a `Pinger` deployment (src/pinger.py) that runs a send loop with a
kill-interval cadence and aggregates outcomes into lifetime and
current-window counters, and a `Receiver` fault injector
(src/receiver.py) that conditionally triggers node termination.

Python integers are modelled as `Int` (status codes, kill interval) or
`Nat` (counters, which only ever increase from 0); Python dicts keyed by
status code are modelled as functions out of `Int` (`Int → Nat` with
default 0 for the counts dict, which is only read through
`.get(status_code, 0)`, and `Int → Option (Finset String)` for the
reasons dict, whose key-presence is tested with `in`). Python sets of
strings are `Finset String`.
-/

/-- Default constant `DEFAULT_BEARER_TOKEN` from src/pinger.py line 13. -/
def DEFAULT_BEARER_TOKEN : String := "default"

/-- Default constant `DEFAULT_TARGET_URL` from src/pinger.py line 14. -/
def DEFAULT_TARGET_URL : String := "http://google.com/"

/-- Default constant `DEFAULT_KILL_INTERVAL` from src/pinger.py line 15. -/
def DEFAULT_KILL_INTERVAL : Int := 1000000

/-- The tri-state kill indicator sent in the JSON payload
(`KillOptions` from constants.py, used at src/pinger.py lines 106-109). -/
inductive KillOptions where
  | SPARE
  | KILL
  deriving DecidableEq, Repr

/-- The mutable fields of the `Pinger` class (src/pinger.py lines 31-45).
The metrics objects (`Counter`, `Gauge`) are external metrics-backend
wiring, out of scope per the spec, and are not part of the state. -/
structure PingerState where
  kill_interval : Int
  target_url : String
  bearer_token : String
  live : Bool
  total_num_requests : Nat
  total_successful_requests : Nat
  total_failed_requests : Nat
  total_kill_requests : Nat
  current_num_requests : Nat
  current_successful_requests : Nat
  current_failed_requests : Nat
  current_kill_requests : Nat
  failed_response_counts : Int → Nat
  failed_response_reasons : Int → Option (Finset String)

/-- The state built by `Pinger.__init__` (src/pinger.py lines 31-45):
empty dicts are the all-default functions. -/
def pinger_init_state : PingerState where
  kill_interval := -1
  target_url := ""
  bearer_token := ""
  live := false
  total_num_requests := 0
  total_successful_requests := 0
  total_failed_requests := 0
  total_kill_requests := 0
  current_num_requests := 0
  current_successful_requests := 0
  current_failed_requests := 0
  current_kill_requests := 0
  failed_response_counts := fun _ => 0
  failed_response_reasons := fun _ => none

/-- Python `set(reason)` on a string (src/pinger.py line 208): the set of
the string's characters, each a one-character string. -/
def pySet (reason : String) : Finset String :=
  (reason.toList.map Char.toString).toFinset

/-- `Pinger.send_kill_request` (src/pinger.py lines 174-180).  Python `%`
on a positive right operand agrees with `Int.emod`, which is Lean's `%`
on `Int`. -/
def send_kill_request (s : PingerState) : Bool :=
  decide (0 < s.kill_interval ∧
    (s.current_num_requests : Int) % s.kill_interval = s.kill_interval - 1)

/-- `Pinger.reset_current_counters` (src/pinger.py lines 182-186). -/
def reset_current_counters (s : PingerState) : PingerState :=
  { s with
    current_num_requests := 0
    current_successful_requests := 0
    current_failed_requests := 0
    current_kill_requests := 0 }

/-- `Pinger.count_successful_request` (src/pinger.py lines 188-195). -/
def count_successful_request (s : PingerState) (kill_request : Bool) : PingerState :=
  { s with
    total_num_requests := s.total_num_requests + 1
    total_successful_requests := s.total_successful_requests + 1
    current_num_requests := s.current_num_requests + 1
    current_successful_requests := s.current_successful_requests + 1
    total_kill_requests :=
      if kill_request then s.total_kill_requests + 1 else s.total_kill_requests
    current_kill_requests :=
      if kill_request then s.current_kill_requests + 1 else s.current_kill_requests }

/-- `Pinger.count_failed_request` (src/pinger.py lines 197-208).  Note
that on the first failure recorded for a status code the source stores
`set(reason)` — the set of the reason string's characters — while later
failures `add` the whole reason string to the existing set. -/
def count_failed_request (s : PingerState) (status_code : Int) (reason : String) :
    PingerState :=
  { s with
    total_num_requests := s.total_num_requests + 1
    total_failed_requests := s.total_failed_requests + 1
    current_num_requests := s.current_num_requests + 1
    current_failed_requests := s.current_failed_requests + 1
    failed_response_counts := fun c =>
      if c = status_code then s.failed_response_counts status_code + 1
      else s.failed_response_counts c
    failed_response_reasons := fun c =>
      if c = status_code then
        match s.failed_response_reasons status_code with
        | some r => some (insert reason r)
        | none => some (pySet reason)
      else s.failed_response_reasons c }

/-- `Pinger.stop_requesting` (src/pinger.py lines 149-154): clear `live`,
then reset the window counters. -/
def stop_requesting (s : PingerState) : PingerState :=
  reset_current_counters { s with live := false }

/-- The configuration mapping passed to `Pinger.reconfigure`: each of the
three keys may be present or absent (`config.get(key, default)`). -/
structure Config where
  kill_interval : Option Int
  target_url : Option String
  bearer_token : Option String

/-- `Pinger.reconfigure` (src/pinger.py lines 75-92): force a stop first,
then set every field to the configured value when present and to its
fixed default constant when absent. -/
def reconfigure (s : PingerState) (config : Config) : PingerState :=
  let s0 := stop_requesting s
  { s0 with
    kill_interval := config.kill_interval.getD DEFAULT_KILL_INTERVAL
    target_url := config.target_url.getD DEFAULT_TARGET_URL
    bearer_token := config.bearer_token.getD DEFAULT_BEARER_TOKEN }

/-- What the environment does with one HTTP probe: either the `requests.post`
call raises a transport-level exception (the string is `repr(e)`, the
exception description) or it yields a response with a status code and a
body text. -/
inductive HttpOutcome where
  | exception (descr : String)
  | response (status_code : Int) (text : String)

/-- The JSON payload built at the top of each loop iteration
(src/pinger.py lines 106-109): `KILL` exactly when `send_kill_request`
holds, else the explicit `SPARE` marker. -/
def iteration_payload (s : PingerState) : KillOptions :=
  if send_kill_request s then KillOptions.KILL else KillOptions.SPARE

/-- One iteration of the send loop body (src/pinger.py lines 106-146),
given the HTTP outcome supplied by the environment.  A transport
exception is counted as a failure with sentinel status `-1` and `repr(e)`
as the reason; otherwise the kill flag (re-evaluated at line 122, on a
state unchanged since the payload was built at line 107) wins over the
status code; otherwise status 200 is a success; otherwise a failure under
the actual status code with the body text as reason. -/
def loop_iteration (s : PingerState) (o : HttpOutcome) : PingerState :=
  match o with
  | HttpOutcome.exception e => count_failed_request s (-1) e
  | HttpOutcome.response status_code text =>
      if send_kill_request s then count_successful_request s true
      else if status_code = 200 then count_successful_request s false
      else count_failed_request s status_code text

/-- A finite run of the send loop: fold the loop body over a list of
environment outcomes. -/
def run_loop (s : PingerState) (outcomes : List HttpOutcome) : PingerState :=
  outcomes.foldl loop_iteration s

/-- `Pinger.start_requesting` (src/pinger.py lines 98-147): when already
live, return the no-op signal immediately and leave the state untouched;
otherwise set `live` and run the send loop (modelled on a finite list of
outcomes), returning no signal. -/
def start_requesting (s : PingerState) (outcomes : List HttpOutcome) :
    PingerState × Option String :=
  if s.live then (s, some "Already sending requests.")
  else (run_loop { s with live := true } outcomes, none)

/-- The kill flags of a run: for each iteration, the value of
`send_kill_request` on the state in which that iteration starts (the flag
that decides its payload and its classification). -/
def kill_flags : PingerState → List HttpOutcome → List Bool
  | _, [] => []
  | s, o :: os => send_kill_request s :: kill_flags (loop_iteration s o) os

/-- The control operations and loop events that can touch a
`PingerState`: the guard of `/start`, `/stop`, a config push, or one
send-loop iteration (which only happens while `live`). -/
inductive ProberOp where
  | start_op
  | stop_op
  | reconfigure_op (config : Config)
  | iterate (o : HttpOutcome)

/-- Apply one operation to the state.  `start_op` only flips `live` (the
loop's iterations are separate `iterate` events, interleavable with
control operations at the loop's await points). -/
def apply_op (s : PingerState) : ProberOp → PingerState
  | ProberOp.start_op => if s.live then s else { s with live := true }
  | ProberOp.stop_op => stop_requesting s
  | ProberOp.reconfigure_op c => reconfigure s c
  | ProberOp.iterate o => if s.live then loop_iteration s o else s

/-- Run a sequence of operations from a given state. -/
def run_ops (s : PingerState) (ops : List ProberOp) : PingerState :=
  ops.foldl apply_op s

/-- A state is reachable when some sequence of operations produces it
from the freshly-constructed state. -/
def reachable (s : PingerState) : Prop :=
  ∃ ops : List ProberOp, run_ops pinger_init_state ops = s

/-- `Receiver.__call__` (src/receiver.py lines 23-36), modelled on a JSON
object with string values, given as an association list.  Returns whether
the Node Terminator (`node_killer_handle.kill_node`) is invoked, and the
response string; `pid` is the responding process identifier
(`os.getpid()`). -/
def receiver_call (pid : Nat) (request_json : List (String × String)) :
    Bool × String :=
  let kill_node := (request_json.lookup "kill_node").getD "False"
  (kill_node == "True", "(PID: " ++ toString pid ++ ") Received request!")

/-- A concrete state for exercising the kill cadence: fresh window,
`kill_interval` set to 3. -/
def cadence_state : PingerState :=
  { pinger_init_state with kill_interval := 3 }

/-- A concrete run of five successful probes. -/
def cadence_outcomes : List HttpOutcome :=
  List.replicate 5 (HttpOutcome.response 200 "ok")

/-- A concrete operation sequence: start, one 200 response, one transport
exception, stop. -/
def demo_ops : List ProberOp :=
  [ProberOp.start_op,
   ProberOp.iterate (HttpOutcome.response 200 "ok"),
   ProberOp.iterate (HttpOutcome.exception "boom"),
   ProberOp.stop_op]

/-- A concrete state that is live mid-run, with some counts accumulated. -/
def live_state : PingerState :=
  { pinger_init_state with
    live := true
    total_num_requests := 7
    total_successful_requests := 4
    total_failed_requests := 3
    current_num_requests := 2
    current_successful_requests := 2 }

/-- A concrete state whose next iteration has the kill flag set:
`kill_interval = 1` fires on every request. -/
def kill_every_state : PingerState :=
  { pinger_init_state with kill_interval := 1 }

/-- The state after recording two failures with status 503 and reasons
"timeout" then "overload", starting with no recorded failures. -/
def two_503_failures : PingerState :=
  count_failed_request (count_failed_request pinger_init_state 503 "timeout") 503 "overload"

/-! Helper lemmas. -/

theorem loop_iteration_kill_interval (s : PingerState) (o : HttpOutcome) :
    (loop_iteration s o).kill_interval = s.kill_interval := by
  cases o with
  | exception e => rfl
  | response status_code text =>
      simp only [loop_iteration]
      split
      · rfl
      · split <;> rfl

theorem loop_iteration_current (s : PingerState) (o : HttpOutcome) :
    (loop_iteration s o).current_num_requests = s.current_num_requests + 1 := by
  cases o with
  | exception e => rfl
  | response status_code text =>
      simp only [loop_iteration]
      split
      · rfl
      · split <;> rfl

theorem kill_flags_length (s : PingerState) (os : List HttpOutcome) :
    (kill_flags s os).length = os.length := by
  induction os generalizing s with
  | nil => rfl
  | cons o os ih => simp [kill_flags, ih]

theorem kill_flags_get (os : List HttpOutcome) :
    ∀ (s : PingerState) (i : Nat) (hi : i < (kill_flags s os).length),
      (kill_flags s os).get ⟨i, hi⟩ =
        decide (0 < s.kill_interval ∧
          ((s.current_num_requests : Int) + i) % s.kill_interval = s.kill_interval - 1) := by
  induction os with
  | nil => intro s i hi; simp [kill_flags] at hi
  | cons o os ih =>
      intro s i hi
      cases i with
      | zero =>
          show send_kill_request s = _
          simp [send_kill_request]
      | succ i =>
          show (kill_flags (loop_iteration s o) os).get ⟨i, _⟩ = _
          rw [ih]
          rw [decide_eq_decide, loop_iteration_kill_interval, loop_iteration_current]
          have key : ((s.current_num_requests + 1 : Nat) : Int) + (i : Int) =
              (s.current_num_requests : Int) + ((i + 1 : Nat) : Int) := by
            push_cast; ring
          rw [key]

/-- The combined lifetime-counter invariant: total requests partition
into successes and failures, and kill requests never exceed successes. -/
def counters_inv (s : PingerState) : Prop :=
  s.total_num_requests = s.total_successful_requests + s.total_failed_requests ∧
  s.total_kill_requests ≤ s.total_successful_requests

theorem counters_inv_init : counters_inv pinger_init_state := by
  constructor <;> simp [pinger_init_state]

theorem counters_inv_successful (s : PingerState) (k : Bool) (h : counters_inv s) :
    counters_inv (count_successful_request s k) := by
  obtain ⟨h1, h2⟩ := h
  cases k <;> constructor <;> simp [count_successful_request] <;> omega

theorem counters_inv_failed (s : PingerState) (c : Int) (r : String) (h : counters_inv s) :
    counters_inv (count_failed_request s c r) := by
  obtain ⟨h1, h2⟩ := h
  constructor <;> simp [count_failed_request] <;> omega

theorem counters_inv_loop (s : PingerState) (o : HttpOutcome) (h : counters_inv s) :
    counters_inv (loop_iteration s o) := by
  cases o with
  | exception e => exact counters_inv_failed s (-1) e h
  | response status_code text =>
      simp only [loop_iteration]
      split
      · exact counters_inv_successful s true h
      · split
        · exact counters_inv_successful s false h
        · exact counters_inv_failed s status_code text h

theorem counters_inv_apply_op (s : PingerState) (op : ProberOp) (h : counters_inv s) :
    counters_inv (apply_op s op) := by
  obtain ⟨h1, h2⟩ := h
  cases op with
  | start_op =>
      by_cases hl : s.live <;> simp [apply_op, hl] <;> exact ⟨h1, h2⟩
  | stop_op =>
      exact ⟨h1, h2⟩
  | reconfigure_op c =>
      exact ⟨h1, h2⟩
  | iterate o =>
      by_cases hl : s.live <;> simp [apply_op, hl]
      · exact counters_inv_loop s o ⟨h1, h2⟩
      · exact ⟨h1, h2⟩

theorem run_ops_inv (ops : List ProberOp) :
    ∀ s : PingerState, counters_inv s → counters_inv (run_ops s ops) := by
  induction ops with
  | nil => intro s h; exact h
  | cons op ops ih => intro s h; exact ih (apply_op s op) (counters_inv_apply_op s op h)

theorem reachable_counters_inv (s : PingerState) (h : reachable s) : counters_inv s := by
  obtain ⟨ops, hops⟩ := h
  rw [← hops]
  exact run_ops_inv ops pinger_init_state counters_inv_init

/-! Claim theorems. -/

/-- C1: for every reachable state of the Prober, the lifetime request
count equals the lifetime success count plus the lifetime failure count —
every classified outcome increments `total_num_requests` and exactly one
of `total_successful_requests` or `total_failed_requests`. -/
theorem pinger_totals_partition (s : PingerState) (h : reachable s) :
    s.total_num_requests = s.total_successful_requests + s.total_failed_requests :=
  (reachable_counters_inv s h).1

/-- Witness for C1: the invariant holds at the concrete state reached by
running `demo_ops` (start, a 200 response, a transport exception, stop)
from the initial state. -/
theorem pinger_totals_partition_witness :
    (run_ops pinger_init_state demo_ops).total_num_requests =
      (run_ops pinger_init_state demo_ops).total_successful_requests +
        (run_ops pinger_init_state demo_ops).total_failed_requests :=
  pinger_totals_partition (run_ops pinger_init_state demo_ops) ⟨demo_ops, rfl⟩

/-- C2: in any run starting from a freshly-reset window, the kill flag of
the iteration at window position `i` is set exactly when
`kill_interval > 0` and `i % kill_interval = kill_interval - 1`, i.e. at
positions `N-1, 2N-1, 3N-1, ...` for `kill_interval = N > 0` and never
when `kill_interval <= 0`. -/
theorem pinger_kill_cadence (s : PingerState) (outcomes : List HttpOutcome) (i : Nat)
    (hi : i < (kill_flags s outcomes).length) (h0 : s.current_num_requests = 0) :
    (kill_flags s outcomes).get ⟨i, hi⟩ = true ↔
      0 < s.kill_interval ∧ (i : Int) % s.kill_interval = s.kill_interval - 1 := by
  rw [kill_flags_get, h0, decide_eq_true_eq]
  norm_num

/-- Witness for C2: with `kill_interval = 3` and a fresh window, the
third request (window position 2) of a five-request run has the kill
flag set. -/
theorem pinger_kill_cadence_witness :
    (kill_flags cadence_state cadence_outcomes).get ⟨2, by decide⟩ = true :=
  (pinger_kill_cadence cadence_state cadence_outcomes 2 (by decide) rfl).mpr (by decide)

/-- C4: `reconfigure` leaves the state stopped (`live = false`, all four
window counters zero) and sets each configuration field to the value in
the mapping when present and to its fixed default constant when absent,
independently of the field's previous value. -/
theorem pinger_reconfigure_defaults (s : PingerState) (c : Config) :
    (reconfigure s c).live = false ∧
    (reconfigure s c).current_num_requests = 0 ∧
    (reconfigure s c).current_successful_requests = 0 ∧
    (reconfigure s c).current_failed_requests = 0 ∧
    (reconfigure s c).current_kill_requests = 0 ∧
    (reconfigure s c).kill_interval = c.kill_interval.getD 1000000 ∧
    (reconfigure s c).target_url = c.target_url.getD "http://google.com/" ∧
    (reconfigure s c).bearer_token = c.bearer_token.getD "default" :=
  ⟨rfl, rfl, rfl, rfl, rfl, rfl, rfl, rfl⟩

/-- C5: outcome classification priority of one loop iteration: a
transport exception is counted as a failure with sentinel status `-1`
and the exception description as reason; otherwise a set kill flag is
counted as a successful and kill request regardless of the status code;
otherwise status 200 is a plain success; otherwise a failure under the
actual status code with the body text as reason. -/
theorem pinger_classification_priority (s : PingerState) (e : String)
    (status_code : Int) (text : String) :
    loop_iteration s (HttpOutcome.exception e) = count_failed_request s (-1) e ∧
    (send_kill_request s = true →
      loop_iteration s (HttpOutcome.response status_code text) =
        count_successful_request s true) ∧
    (send_kill_request s = false →
      loop_iteration s (HttpOutcome.response 200 text) =
        count_successful_request s false) ∧
    (send_kill_request s = false → status_code ≠ 200 →
      loop_iteration s (HttpOutcome.response status_code text) =
        count_failed_request s status_code text) := by
  refine ⟨rfl, ?_, ?_, ?_⟩
  · intro h
    simp [loop_iteration, h]
  · intro h
    simp [loop_iteration, h]
  · intro h hne
    simp [loop_iteration, h, hne]

/-- Witness for C5: with `kill_interval = 1` the kill flag is set, and a
response with status 500 is still counted as a successful kill request. -/
theorem pinger_classification_priority_witness :
    loop_iteration kill_every_state (HttpOutcome.response 500 "oops") =
      count_successful_request kill_every_state true :=
  (pinger_classification_priority kill_every_state "boom" 500 "oops").2.1 (by decide)

/-- C6: `stop_requesting` zeroes the four window counters and clears
`live`, while the four lifetime counters and the failure histograms are
unchanged. -/
theorem pinger_stop_frame (s : PingerState) :
    (stop_requesting s).current_num_requests = 0 ∧
    (stop_requesting s).current_successful_requests = 0 ∧
    (stop_requesting s).current_failed_requests = 0 ∧
    (stop_requesting s).current_kill_requests = 0 ∧
    (stop_requesting s).live = false ∧
    (stop_requesting s).total_num_requests = s.total_num_requests ∧
    (stop_requesting s).total_successful_requests = s.total_successful_requests ∧
    (stop_requesting s).total_failed_requests = s.total_failed_requests ∧
    (stop_requesting s).total_kill_requests = s.total_kill_requests ∧
    (stop_requesting s).failed_response_counts = s.failed_response_counts ∧
    (stop_requesting s).failed_response_reasons = s.failed_response_reasons :=
  ⟨rfl, rfl, rfl, rfl, rfl, rfl, rfl, rfl, rfl, rfl, rfl⟩

/-- C7: for every reachable state of the Prober, the lifetime kill count
never exceeds the lifetime success count. -/
theorem pinger_kill_le_success (s : PingerState) (h : reachable s) :
    s.total_kill_requests ≤ s.total_successful_requests :=
  (reachable_counters_inv s h).2

/-- Witness for C7: the inequality holds at the concrete state reached by
running `demo_ops` from the initial state. -/
theorem pinger_kill_le_success_witness :
    (run_ops pinger_init_state demo_ops).total_kill_requests ≤
      (run_ops pinger_init_state demo_ops).total_successful_requests :=
  pinger_kill_le_success (run_ops pinger_init_state demo_ops) ⟨demo_ops, rfl⟩

/-- C8: invoking start while `live` is true returns the no-op signal
`"Already sending requests."` and the entire state unchanged — no reset
and no second loop. -/
theorem pinger_start_idempotent (s : PingerState) (outcomes : List HttpOutcome)
    (h : s.live = true) :
    start_requesting s outcomes = (s, some "Already sending requests.") := by
  simp [start_requesting, h]

/-- Witness for C8: starting the concrete live state again returns the
no-op signal with the state untouched. -/
theorem pinger_start_idempotent_witness :
    start_requesting live_state [] = (live_state, some "Already sending requests.") :=
  pinger_start_idempotent live_state [] rfl

/-- C9: the Fault Injector invokes the Node Terminator exactly when the
request JSON binds "kill_node" to the string "True" (case-sensitive; a
missing field or any other value means no kill), and always answers with
the liveness acknowledgment carrying the responding process id. -/
theorem receiver_kill_node_contract (pid : Nat) (request_json : List (String × String)) :
    ((receiver_call pid request_json).1 = true ↔
      request_json.lookup "kill_node" = some "True") ∧
    (receiver_call pid request_json).2 =
      "(PID: " ++ toString pid ++ ") Received request!" := by
  refine ⟨?_, rfl⟩
  simp only [receiver_call]
  cases hl : request_json.lookup "kill_node" with
  | none => simp
  | some v => simp [beq_iff_eq]

/-- Witness for C9: a request with "kill_node" bound to "True" triggers
the Node Terminator. -/
theorem receiver_kill_node_contract_witness :
    (receiver_call 42 [("kill_node", "True")]).1 = true :=
  (receiver_kill_node_contract 42 [("kill_node", "True")]).1.mpr rfl

/-- C3: evaluation of `count_failed_request` at the claimed scenario.
After two failures with status 503 and reasons "timeout" then "overload"
from a state with no recorded 503 failures, the count is 2 as claimed,
but the reason set is `insert "overload" (pySet "timeout")` — the
characters of "timeout" as one-character strings plus the whole string
"overload" — because the first insertion stores Python `set(reason)`,
the set of the reason string's characters, not the singleton of the
reason.  In particular the set is not the claimed pair of whole reason
strings. -/
theorem pinger_failure_reason_charset_bug :
    two_503_failures.failed_response_counts 503 = 2 ∧
    two_503_failures.failed_response_reasons 503 =
      some (insert "overload" (pySet "timeout")) ∧
    pySet "timeout" = {"t", "i", "m", "e", "o", "u"} ∧
    two_503_failures.failed_response_reasons 503 ≠
      some ({"timeout", "overload"} : Finset String) := by
  refine ⟨by decide, by decide, by decide, by decide⟩
